import Mathlib

/-!
Verification development for the `automaton` repository: a set of scripts that
scan recently uploaded videos of a hosting account, classify each video from
its linked live-event id and creation time, normalize the title with the
creation date, and move the video into a destination folder.

The repository has three overlapping variants:
  - `automaton-2.py` (model prefix `a2_` / shared top-level helpers),
  - `automaton.py`    (model prefix `ap_`),
  - `automaton_mp.py` (model prefix `mp_` and the Ministry-Platform matcher).

Conventions of the shallow embedding:
  - UTC timestamps are modelled as seconds since the Unix epoch (`Nat`);
    the Python `datetime` comparison on equal-offset aware datetimes is then
    ordinary `Nat` comparison, `.time()` is seconds-of-day (`t % 86400`) and
    `strftime("%Y-%m-%d")` is `formatDate`.
  - clock bounds such as "09:20" are their seconds-of-day value (here 33600).
  - a value Python may lack (missing dict key, unparsable string, `None`) is
    an `Option`; a Python exception that the source does not catch is modelled
    with `Except PyErr`.
  - the external HTTP layer is an oracle: each call outcome (success, HTTP
    status, connection failure) is an explicit input of the function that
    issues the call, and issued calls are recorded as explicit action values.
-/

/-- Python exceptions that escape the try blocks of the source. -/
inductive PyErr where
  | nameError
  | typeError
  | keyError
deriving DecidableEq, Repr

/-! ## Generic string helpers -/

/-- Decides whether the first character list starts the second one. -/
def isPrefixList : List Char → List Char → Bool
  | [], _ => true
  | _ :: _, [] => false
  | a :: as, b :: bs => a == b && isPrefixList as bs

/-- Helper for `containsSub`: does `needle` occur in `hay` at some position. -/
def hasSubAux (needle : List Char) : List Char → Bool
  | [] => isPrefixList needle []
  | c :: rest => isPrefixList needle (c :: rest) || hasSubAux needle rest

/-- Python `needle in hay` substring test. -/
def containsSub (needle hay : String) : Bool :=
  hasSubAux needle.data hay.data

/-- Lowercase every character, Python `str.lower` (ASCII range suffices here). -/
def toLowerStr (s : String) : String :=
  ⟨s.data.map Char.toLower⟩

/-- Helper for `lastSegment`: the characters after the last slash. -/
def lastSegAux : List Char → List Char → List Char
  | [], cur => cur
  | c :: rest, cur => if c = '/' then lastSegAux rest [] else lastSegAux rest (cur ++ [c])

/-- Python `s.split('/')[-1]`: the text after the last slash (the whole
string when there is no slash). -/
def lastSegment (s : String) : String :=
  ⟨lastSegAux s.data []⟩

/-! ## Identifier extraction (`get_id_from_uri` and its wrappers)

`automaton-2.py` lines 160-174: `re.search(rf'/{kind}/(\d+)', uri)` finds the
first position where the literal `/kind/` is followed by at least one digit
and returns the maximal digit run there. -/

/-- First match of the pattern `pat` followed by one or more digits; returns
the digit group. -/
def findIdAux (pat : List Char) : List Char → Option String
  | [] => none
  | c :: rest =>
    if isPrefixList pat (c :: rest) then
      let ds := ((c :: rest).drop pat.length).takeWhile Char.isDigit
      if ds.isEmpty then findIdAux pat rest else some ⟨ds⟩
    else findIdAux pat rest

/-- `get_id_from_uri(uri, kind)`: `None` for a missing or empty locator,
otherwise the first `/kind/<digits>` group. -/
def get_id_from_uri (uri : Option String) (kind : String) : Option String :=
  match uri with
  | none => none
  | some s => if s = "" then none else findIdAux ("/" ++ kind ++ "/").data s.data

def get_video_id_from_uri (uri : Option String) : Option String :=
  get_id_from_uri uri "videos"

def get_folder_id_from_uri (uri : Option String) : Option String :=
  get_id_from_uri uri "folders"

def get_live_event_id_from_uri (uri : Option String) : Option String :=
  get_id_from_uri uri "live_events"

/-! ## Dates and clock times -/

/-- Seconds-of-day of a UTC timestamp: Python `datetime.time()` at second
granularity. -/
def timeOfDay (t : Nat) : Nat := t % 86400

/-- Civil date (year, month, day) of a day count since 1970-01-01,
proleptic Gregorian (the standard era-based conversion). -/
def civilFromDays (z : Nat) : Nat × Nat × Nat :=
  let z' := z + 719468
  let era := z' / 146097
  let doe := z' % 146097
  let yoe := (doe - doe / 1460 + doe / 36524 - doe / 146096) / 365
  let y := yoe + era * 400
  let doy := doe - (365 * yoe + yoe / 4 - yoe / 100)
  let mp := (5 * doy + 2) / 153
  let d := doy - (153 * mp + 2) / 5 + 1
  let m := if mp < 10 then mp + 3 else mp - 9
  (if m ≤ 2 then y + 1 else y, m, d)

/-- Zero-pad a number to two digits. -/
def pad2 (n : Nat) : String :=
  if n < 10 then "0" ++ toString n else toString n

/-- Zero-pad a number to four digits. -/
def pad4 (n : Nat) : String :=
  if n < 10 then "000" ++ toString n
  else if n < 100 then "00" ++ toString n
  else if n < 1000 then "0" ++ toString n
  else toString n

/-- Python `dt.strftime("%Y-%m-%d")` on a UTC timestamp in seconds. -/
def formatDate (t : Nat) : String :=
  let c := civilFromDays (t / 86400)
  pad4 c.1 ++ "-" ++ pad2 c.2.1 ++ "-" ++ pad2 c.2.2

/-! ## Shared static configuration (identical in all variants) -/

/-- `EXCLUDED_FOLDER_IDS`. -/
def excluded_folder_ids : List String := ["11103430", "182762", "8219992"]

/-- `DESTINATION_FOLDERS` as a lookup: category name to folder id. -/
def destination_folders : String → Option String
  | "Worship Services" => some "15749517"
  | "Weddings and Memorials" => some "2478125"
  | "Scott's Classes" => some "15680946"
  | _ => none

/-! ## Video records

The field subset requested by `automaton-2.py` / `automaton.py`
(`name,created_time,uri,parent_folder.uri,live_event.uri`).  `createdTime` is
the parsed `created_time`: `none` when the string is missing or unparsable
(both lead to the same skip paths in the source).  `liveEvent` is two-level:
the outer `Option` is the presence of a (truthy) `live_event` dict, the inner
one the presence of its `uri` key. -/
structure VideoInfo where
  uri : Option String := none
  name : Option String := none
  createdTime : Option Nat := none
  parentFolderUri : Option String := none
  liveEvent : Option (Option String) := none
deriving DecidableEq, Repr

/-! ## automaton-2.py classification -/

/-- One `SERVICE_TYPE_RULES` entry of `automaton-2.py`; time bounds in
seconds-of-day. -/
structure A2Rule where
  name : String
  folder : String
  timeRanges : Option (List (Nat × Nat))
deriving DecidableEq, Repr

/-- `SERVICE_TYPE_RULES` of `automaton-2.py` (insertion order preserved). -/
def a2_service_type_rules : List (String × A2Rule) :=
  [ ("3261302", ⟨"Worship Service - Traditional", "Worship Services", some [(33600, 43200)]⟩),
    ("4590739", ⟨"Worship Service - Contemporary", "Worship Services", some [(33600, 43200)]⟩),
    ("4972294", ⟨"Memorials at St. Andrew", "Weddings and Memorials", some [(0, 86340)]⟩),
    ("3867304", ⟨"Weddings at St. Andrew", "Weddings and Memorials", some [(0, 86340)]⟩),
    ("3251895", ⟨"Class - Scott Engle's Tuesday Class", "Scott's Classes", some [(0, 86340)]⟩),
    ("3378887", ⟨"Class - Something Else Class", "Scott's Classes", some [(0, 86340)]⟩) ]

/-- The window test of `automaton-2.py` lines 211-212:
`(start_time <= end_time and start_time <= t <= end_time) or
 (start_time > end_time and (t >= start_time or t <= end_time))`. -/
def inWindow (t s e : Nat) : Bool :=
  (decide (s ≤ e) && (decide (s ≤ t) && decide (t ≤ e))) ||
  (decide (e < s) && (decide (s ≤ t) || decide (t ≤ e)))

/-- The rule loop of `determine_destination_folder_id` (`automaton-2.py`
lines 199-214).  `tod` is `video_created_dt_utc.time()` when the creation
time was present and parsable, else `none`; a rule whose id matches but whose
time ranges all fail does not return, the loop continues. -/
def a2_find_rule : List (String × A2Rule) → String → Option Nat → Option String
  | [], _, _ => none
  | (rid, rd) :: rest, evId, tod =>
    if rid = evId then
      match rd.timeRanges, tod with
      | none, _ => destination_folders rd.folder
      | some _, none => destination_folders rd.folder
      | some ranges, some t =>
        if ranges.any (fun p => inWindow t p.1 p.2) then destination_folders rd.folder
        else a2_find_rule rest evId tod
    else a2_find_rule rest evId tod

/-- `determine_destination_folder_id` of `automaton-2.py` (lines 180-214).
The compared clock value is the UTC seconds-of-day of the creation
timestamp (`video_time_utc = video_created_dt_utc.time()`). -/
def determine_destination_folder_id (v : VideoInfo) : Option String :=
  match v.liveEvent with
  | none => none
  | some evUri =>
    match get_live_event_id_from_uri evUri with
    | none => none
    | some evId => a2_find_rule a2_service_type_rules evId (v.createdTime.map timeOfDay)

/-- Modelled from the spec: the organization's local clock.  The spec calls
for "the organization's local-clock time" (the only timezone the repository
names is America/Chicago); the fixed standard offset UTC-6 is used, so the
local seconds-of-day of a UTC timestamp is `(tod + 18 * 3600) % 86400`. -/
def specLocalTimeOfDay (t : Nat) : Nat := (timeOfDay t + 64800) % 86400

/-- Modelled from the spec: `determine_destination_folder_id` as claim C4
reads it, with the rule windows compared against the local-clock
seconds-of-day instead of the UTC one. -/
def spec_determine_destination_folder_local (v : VideoInfo) : Option String :=
  match v.liveEvent with
  | none => none
  | some evUri =>
    match get_live_event_id_from_uri evUri with
    | none => none
    | some evId => a2_find_rule a2_service_type_rules evId (v.createdTime.map specLocalTimeOfDay)

/-- Modelled from the spec: claim C3's half-open window predicate,
`(start <= end and t in [start, end)) or (start > end and (t >= start or
t < end))`. -/
def spec_in_window_half_open (t s e : Nat) : Bool :=
  (decide (s ≤ e) && (decide (s ≤ t) && decide (t < e))) ||
  (decide (e < s) && (decide (s ≤ t) || decide (t < e)))

/-! ## automaton-2.py per-run processing -/

/-- The two mutations `automaton-2.py` can issue for one video:
`titleUpdate` is the new name passed to the PATCH call when one is issued,
`folderAdd` is the destination folder of the PUT call when one is issued. -/
structure A2Decision where
  titleUpdate : Option String
  folderAdd : Option String
deriving DecidableEq, Repr

/-- The per-video body of `main` in `automaton-2.py` (lines 294-330): skip
everything when the creation time is missing; issue a title update unless the
formatted date already occurs in the current title (the new title appends the
date in parentheses); issue the folder-add call whenever a rule matches,
without comparing against the current parent folder. -/
def a2_process_one (v : VideoInfo) : A2Decision :=
  match v.createdTime with
  | none => ⟨none, none⟩
  | some t =>
    let fd := formatDate t
    let cur := v.name.getD "Untitled"
    let titleAct := if containsSub fd cur then none else some (cur ++ " (" ++ fd ++ ")")
    ⟨titleAct, determine_destination_folder_id v⟩

/-- The exclusion filter of `main` in `automaton-2.py` (lines 275-284): a
video is dropped when its parent folder id extracts and is excluded. -/
def a2_excluded (v : VideoInfo) : Bool :=
  match get_folder_id_from_uri v.parentFolderUri with
  | some fid => fid ∈ excluded_folder_ids
  | none => false

/-- A run of `automaton-2.py` over an already-fetched candidate list: the
exclusion filter runs first (before any classification), then every surviving
video is processed. -/
def a2_run (vs : List VideoInfo) : List (VideoInfo × A2Decision) :=
  (vs.filter (fun v => !a2_excluded v)).map (fun v => (v, a2_process_one v))

/-! ## automaton-2.py pagination (`get_recent_videos_with_folder_and_live_event_info`) -/

/-- The inner per-page loop (lines 135-145): keep a video created strictly
after `since`, skip one without a creation time, and trigger the early
return (second component `true`) at the first video at or before `since`. -/
def scan_page (since : Nat) : List VideoInfo → List VideoInfo × Bool
  | [] => ([], false)
  | v :: vs =>
    match v.createdTime with
    | some t =>
      if since < t then
        ((v :: (scan_page since vs).1), (scan_page since vs).2)
      else ([], true)
    | none => scan_page since vs

/-- The page loop (lines 116-158): stop at an empty page, at the early
return, or when the pages run out (`paging.next is None`). -/
def fetch_recent (since : Nat) : List (List VideoInfo) → List VideoInfo
  | [] => []
  | p :: ps =>
    if p.isEmpty then []
    else if (scan_page since p).2 then (scan_page since p).1
    else (scan_page since p).1 ++ fetch_recent since ps

/-- Modelled from the spec: claim C7's description of an in-window item,
"created strictly after the boundary". -/
def in_lookback (since : Nat) (v : VideoInfo) : Bool :=
  match v.createdTime with
  | some t => decide (since < t)
  | none => false

/-- Creation time with a default, for stating sortedness. -/
def cVal (v : VideoInfo) : Nat := v.createdTime.getD 0

/-! ## automaton-2.py folder-add call -/

/-- Outcome of one HTTP call as the external platform answers it. -/
inductive ApiOutcome where
  | ok
  | httpError (status : Nat)
  | connError
deriving DecidableEq, Repr

/-- `add_video_to_folder` of `automaton-2.py` (lines 216-234): success on a
2xx answer; an `HTTPError` with status 400 is treated as "already in the
folder" and still reported as success; every other failure reports `False`. -/
def add_video_to_folder (videoId destinationFolderId userId : String)
    (response : ApiOutcome) : Bool :=
  match response with
  | .ok => true
  | .httpError s => if s = 400 then true else false
  | .connError => false

/-! ## automaton.py (`ap_` prefix)

The classifier of `automaton.py` is broken in the source: every rule of its
`SERVICE_TYPE_RULES` carries a `time_ranges` entry (the two worship entries
are malformed single strings `("09:20, 12:00")`, the rest proper pairs), but
none of that data is ever read, because

  - line 328 `video_time_utc =- video_created_dt_utc.time()` applies unary
    minus to a `datetime.time`, a `TypeError`, reached whenever a rule id
    matches and the creation time parsed;
  - line 336/343 `rule_details["folder_key"]` is a `KeyError` (the entries
    only define `"folder"`), reached when a rule id matches and the creation
    time is absent.

Hence each rule entry is embedded as just its id here and the loop as the
exception it raises; the ranges are dead data. -/

/-- Rule ids of `SERVICE_TYPE_RULES` in `automaton.py` (insertion order). -/
def ap_rule_ids : List String :=
  ["3261302", "4590739", "4972294", "3867304", "3251895", "3378887"]

/-- The rule loop of `determine_destination_folder_id` in `automaton.py`
(lines 324-345): a matching rule raises (see above); no match returns `None`. -/
def ap_find_rule : List String → String → Option Nat → Except PyErr (Option String)
  | [], _, _ => .ok none
  | rid :: rest, evId, created =>
    if rid = evId then
      match created with
      | some _ => .error .typeError
      | none => .error .keyError
    else ap_find_rule rest evId created

/-- `determine_destination_folder_id` of `automaton.py` (lines 253-345).
The first loop (lines 296-302) only prints; the guards return `None` when the
live-event dict or its id is absent. -/
def ap_determine_destination_folder_id (v : VideoInfo) : Except PyErr (Option String) :=
  match v.liveEvent with
  | none => .ok none
  | some evUri =>
    match get_live_event_id_from_uri evUri with
    | none => .ok none
    | some evId => ap_find_rule ap_rule_ids evId v.createdTime

/-- Outcomes of the two external calls `automaton.py` can issue for one
video: did the PATCH (rename) succeed, did the PUT (move) succeed. -/
structure ApOracle where
  renameOk : Bool
  moveOk : Bool
deriving DecidableEq, Repr

/-- External write calls issued by `automaton.py` for one video. -/
inductive ApAction where
  | rename (videoId title : String)
  | move (videoId folderId : String)
deriving DecidableEq, Repr

/-- Result of processing one video in `main` of `automaton.py`: the calls
issued in order, the uncaught exception if the sorting phase raised, and the
two per-video counter contributions. -/
structure ApResult where
  actions : List ApAction
  crash : Option PyErr
  titleUpdated : Bool
  sorted : Bool
deriving DecidableEq, Repr

/-- Python truthiness of an optional string (`not current_title` is true for
both a missing name and an empty one). -/
def truthyStr (o : Option String) : Option String :=
  match o with
  | some s => if s = "" then none else some s
  | none => none

/-- The per-video body of `main` in `automaton.py` (lines 499-561).  The
title phase (lines 514-542) is fully wrapped in try/except: a failed rename
only affects the counters.  The sorting phase (lines 544-561) is not wrapped:
an exception from the classifier aborts the run, after the rename was already
issued.  A move is issued only when a destination was determined and differs
from the current parent folder. -/
def ap_process_one (v : VideoInfo) (o : ApOracle) : ApResult :=
  match get_video_id_from_uri v.uri with
  | none => ⟨[], none, false, false⟩
  | some vid =>
    let titlePart : List ApAction × Bool :=
      match truthyStr v.name, v.createdTime with
      | some cur, some t =>
        let fd := formatDate t
        if containsSub fd cur then ([], false)
        else ([ApAction.rename vid (cur ++ " (" ++ fd ++ ")")], o.renameOk)
      | _, _ => ([], false)
    match ap_determine_destination_folder_id v with
    | .error e => ⟨titlePart.1, some e, titlePart.2, false⟩
    | .ok none => ⟨titlePart.1, none, titlePart.2, false⟩
    | .ok (some dest) =>
      if get_folder_id_from_uri v.parentFolderUri = some dest then
        ⟨titlePart.1, none, titlePart.2, false⟩
      else
        ⟨titlePart.1 ++ [ApAction.move vid dest], none, titlePart.2, o.moveOk⟩

/-! ## automaton_mp.py (`mp_` prefix) -/

/-- A Ministry Platform event from the cache, with the parsed
`Event_Start_Date_dt` as UTC seconds. -/
structure MpEvent where
  title : String
  startDt : Nat
deriving DecidableEq, Repr

/-- A folder dict as fetched by `automaton_mp.py` (`parent_folder`). -/
structure MpFolder where
  uri : String
  name : String
deriving DecidableEq, Repr

/-- A video as fetched by `automaton_mp.py`
(`uri,name,created_time,modified_time,parent_folder,is_playable`). -/
structure MpVideo where
  uri : String
  name : String
  createdTime : Nat
  isPlayable : Bool
  parentFolder : Option MpFolder
deriving DecidableEq, Repr

/-- Absolute difference of two timestamps, `abs(a - b)` on timedeltas. -/
def absDiff (a b : Nat) : Nat := max a b - min a b

/-- The scan loop of `find_closest_event_in_cache` (lines 121-125): track the
event with the smallest absolute distance to `t` (`none` plays the role of
the initial `timedelta.max`). -/
def closest_loop (t : Nat) : List MpEvent → Option (MpEvent × Nat) → Option (MpEvent × Nat)
  | [], acc => acc
  | e :: es, acc =>
    let d := absDiff t e.startDt
    match acc with
    | none => closest_loop t es (some (e, d))
    | some be =>
      if d < be.2 then closest_loop t es (some (e, d)) else closest_loop t es (some be)

/-- `find_closest_event_in_cache` of `automaton_mp.py` (lines 113-133): an
empty cache returns `None`; with a non-empty cache the loop selects a best
match, after which the confidence check on line 128 reads the undefined
module name `MAX_TIME_DIFFERENCE_MINUTES` (the constant defined on line 26 is
`MAX_TIME_DIFFERENCE`), raising a `NameError` before anything is returned. -/
def find_closest_event_in_cache (t : Nat) (cache : List MpEvent) :
    Except PyErr (Option MpEvent) :=
  match cache with
  | [] => .ok none
  | _ =>
    let _best := closest_loop t cache none
    .error PyErr.nameError

/-- `TIMEZONE = America/Chicago` conversion used for the date in the new
title: modelled at the fixed standard offset UTC-6 (the tz-database DST rules
are outside the embedding; clamped at 0 for pre-epoch instants). -/
def chicago_local (t : Nat) : Nat := t - 21600

/-- `MP_CATEGORY_TO_VIMEO_FOLDER_NAME` (insertion order). -/
def mp_category_to_vimeo_folder_name : List (String × String) :=
  [ ("Worship", "Worship Services"),
    ("Memorial", "Weddings and Memorials"),
    ("Wedding", "Weddings and Memorials"),
    ("Class", "Scott's Classes") ]

/-- The keyword loop of `process_video` (lines 188-191): first keyword whose
lowercase form occurs in the lowercase event title. -/
def mp_keyword_folder : List (String × String) → String → Option String
  | [], _ => none
  | (kw, folderName) :: rest, lowTitle =>
    if containsSub (toLowerStr kw) lowTitle then some folderName
    else mp_keyword_folder rest lowTitle

/-- Per-video outcomes of the external calls `process_video` makes: the PATCH
result, the `GET /me` inside the move block, and the status code of the move
PUT. -/
structure MpOracle where
  patchOk : Bool
  meOk : Bool
  moveStatus : Nat
deriving DecidableEq, Repr

/-- The `stats` dict of `process_video`. -/
structure MpStats where
  titleUpdated : Bool
  moved : Bool
deriving DecidableEq, Repr

/-- External write calls issued by `automaton_mp.py` for one video. -/
inductive MpAction where
  | patchTitle (videoUri title : String)
  | putMove (videoId folderId : String)
deriving DecidableEq, Repr

/-- The tail of `process_video` after an event matched (lines 171-212): build
the new title from the event's local start date and title, issue the PATCH;
if the PATCH raises, the function returns at line 183 and the move section is
never reached.  Otherwise categorize by keyword and, when a folder id
resolves, issue the move PUT (`moved` only on a 204 answer); failures inside
the move block are caught and only logged. -/
def process_video_matched (v : MpVideo) (ev : MpEvent) (o : MpOracle) :
    MpStats × List MpAction :=
  let newTitle := formatDate (chicago_local ev.startDt) ++ " - " ++ ev.title
  if !o.patchOk then
    (⟨false, false⟩, [MpAction.patchTitle v.uri newTitle])
  else
    let base := [MpAction.patchTitle v.uri newTitle]
    match mp_keyword_folder mp_category_to_vimeo_folder_name (toLowerStr ev.title) with
    | none => (⟨true, false⟩, base)
    | some folderName =>
      match destination_folders folderName with
      | none => (⟨true, false⟩, base)
      | some fid =>
        if o.meOk then
          (⟨true, decide (o.moveStatus = 204)⟩,
            base ++ [MpAction.putMove (lastSegment v.uri) fid])
        else (⟨true, false⟩, base)

/-- `process_video` of `automaton_mp.py` (lines 158-212): match against the
event cache first (a `NameError` from the matcher propagates, uncaught); no
match stops processing the video; a match continues with the rename/move
tail. -/
def process_video (v : MpVideo) (cache : List MpEvent) (o : MpOracle) :
    Except PyErr (MpStats × List MpAction) :=
  match find_closest_event_in_cache v.createdTime cache with
  | .error e => .error e
  | .ok none => .ok (⟨false, false⟩, [])
  | .ok (some ev) => .ok (process_video_matched v ev o)

/-- What the main-loop guard of `automaton_mp.py` (lines 243-257) does with
one video before any processing. -/
inductive MpCheck where
  | skip
  | crash
  | proceed
deriving DecidableEq, Repr

/-- The guard of `main` in `automaton_mp.py` (lines 243-257): a non-playable
video is skipped; a video in an excluded folder is skipped; for any other
video inside a folder, line 253 reads the undefined name `parent_folder_iod`,
a `NameError` that aborts the run; a video in no folder proceeds. -/
def mp_check (v : MpVideo) : MpCheck :=
  if !v.isPlayable then .skip
  else
    match v.parentFolder with
    | some pf =>
      if lastSegment pf.uri ∈ excluded_folder_ids then .skip
      else .crash
    | none => .proceed

/-- The main loop of `automaton_mp.py` over the fetched candidates, each
paired with the outcomes of the external calls it would trigger; the action
trace of the run, cut short when an uncaught exception aborts it. -/
def mp_run (cache : List MpEvent) : List (MpVideo × MpOracle) → List MpAction
  | [] => []
  | (v, o) :: rest =>
    match mp_check v with
    | .skip => mp_run cache rest
    | .crash => []
    | .proceed =>
      match process_video v cache o with
      | .error _ => []
      | .ok (_, acts) => acts ++ mp_run cache rest

/-! ## Concrete inputs used by the claim theorems -/

/-- A video already titled with its creation date and already sitting in its
computed destination folder (live event 4972294, Memorials). -/
def c1_video : VideoInfo :=
  { uri := some "/videos/111", name := some "1970-01-01 - Memorial",
    createdTime := some 36000, parentFolderUri := some "/folders/2478125",
    liveEvent := some (some "/live_events/4972294") }

/-- A video sitting in the excluded folder 182762. -/
def c2_video : VideoInfo :=
  { uri := some "/videos/222", name := some "Scott's Class Recording",
    createdTime := some 36000, parentFolderUri := some "/folders/182762" }

/-- A video of live event 3261302 created at 10:00 UTC: inside the worship
window in UTC, outside it in Chicago local time (04:00). -/
def c4_video : VideoInfo :=
  { uri := some "/videos/444", name := some "x", createdTime := some 36000,
    liveEvent := some (some "/live_events/3261302") }

/-- Same live event and same UTC seconds-of-day as `c4_video_b`, every other
field different. -/
def c4_video_a : VideoInfo :=
  { uri := some "/videos/440", name := some "a", createdTime := some 36000,
    liveEvent := some (some "/live_events/3261302") }

/-- One day later than `c4_video_a`, in a folder and with another name. -/
def c4_video_b : VideoInfo :=
  { uri := some "/videos/441", name := some "b", createdTime := some 122400,
    parentFolderUri := some "/folders/99",
    liveEvent := some (some "/live_events/3261302") }

/-- A video whose title does not yet carry its creation date. -/
def c5_video : VideoInfo :=
  { uri := some "/videos/555", name := some "Memorial Service",
    createdTime := some 36000 }

/-- A non-playable video. -/
def c6_video : MpVideo :=
  { uri := "/videos/666", name := "placeholder", createdTime := 36000,
    isPlayable := false, parentFolder := none }

/-- Call outcomes for `c6_video` (never reached). -/
def c6_oracle : MpOracle := ⟨true, true, 204⟩

/-- The field subset `automaton-2.py` requests (line 125:
`name,created_time,uri,parent_folder.uri,live_event.uri`) of a platform
video record that carries the `is_playable` flag (the record shape
`automaton_mp.py` fetches): `is_playable` is not among the requested
fields, so nothing an `automaton-2.py` run does can depend on it
(`MpVideo` carries no live event, so none is forwarded). -/
def a2_view (v : MpVideo) : VideoInfo :=
  { uri := some v.uri, name := some v.name, createdTime := some v.createdTime,
    parentFolderUri := v.parentFolder.map MpFolder.uri, liveEvent := none }

/-- A non-playable placeholder inside the lookback window, in no folder and
not yet titled with its creation date. -/
def c6_a2_video : MpVideo :=
  { uri := "/videos/661", name := "Raw Placeholder", createdTime := 36000,
    isPlayable := false, parentFolder := none }

/-- First page of the pagination witness, created at 100. -/
def c7_vid_a : VideoInfo := { uri := some "/videos/771", createdTime := some 100 }

/-- Second page of the pagination witness, created at 50. -/
def c7_vid_b : VideoInfo := { uri := some "/videos/772", createdTime := some 50 }

/-- A playable root video handed to `process_video`. -/
def c8_video : MpVideo :=
  { uri := "/videos/9", name := "raw upload", createdTime := 36000,
    isPlayable := true, parentFolder := none }

/-- A matched event whose title categorizes as Worship Services. -/
def c8_event : MpEvent := { title := "Worship Team Special", startDt := 36000 }

/-! ## Claim theorems -/

/-- C1 counterexample: `c1_video` has its formatted creation date in its
title and already sits in its computed destination folder, yet a run of
`automaton-2.py` still issues the folder-add call for it (the per-video body
never compares the current parent folder with the destination). -/
theorem c1_counterexample :
    containsSub (formatDate 36000) (c1_video.name.getD "Untitled") = true ∧
    get_folder_id_from_uri c1_video.parentFolderUri = determine_destination_folder_id c1_video ∧
    a2_run [c1_video] = [(c1_video, ⟨none, some "2478125"⟩)] := by
  decide

/-- C1 (amended): for every video whose title already contains its formatted
creation date, a run of `automaton-2.py` issues no title update, but the
folder-add call is still issued exactly when classification yields a
destination, regardless of the current parent folder. -/
theorem c1_theorem (v : VideoInfo) (t : Nat)
    (hc : v.createdTime = some t)
    (hd : containsSub (formatDate t) (v.name.getD "Untitled") = true) :
    (a2_process_one v).titleUpdate = none ∧
    (a2_process_one v).folderAdd = determine_destination_folder_id v := by
  simp [a2_process_one, hc, hd]

/-- C1 witness: `c1_theorem` applied to `c1_video`. -/
theorem c1_witness :
    c1_video.createdTime = some 36000 ∧
    containsSub (formatDate 36000) (c1_video.name.getD "Untitled") = true ∧
    ((a2_process_one c1_video).titleUpdate = none ∧
      (a2_process_one c1_video).folderAdd = determine_destination_folder_id c1_video) :=
  ⟨rfl, by decide, c1_theorem c1_video 36000 rfl (by decide)⟩

/-- C2: a video whose parent folder is excluded contributes nothing to a run
of `automaton-2.py`: removing it from the candidate list leaves the run's
output unchanged, so neither a title nor a folder mutation is attempted for
it, before any classification happens. -/
theorem c2_theorem (v : VideoInfo) (l₁ l₂ : List VideoInfo)
    (h : a2_excluded v = true) :
    a2_run (l₁ ++ v :: l₂) = a2_run (l₁ ++ l₂) := by
  simp [a2_run, List.filter_append, List.filter_cons, h]

/-- C2 witness: `c2_theorem` applied to `c2_video` in folder 182762. -/
theorem c2_witness :
    a2_excluded c2_video = true ∧
    a2_run ([] ++ c2_video :: []) = a2_run ([] ++ []) :=
  ⟨by decide, c2_theorem c2_video [] [] (by decide)⟩

/-- C3 counterexample: the claimed half-open characterization fails at the
upper bound: the code's window test accepts t = end ("12:00" in the window
"09:20"-"12:00"), the claimed predicate rejects it. -/
theorem c3_counterexample :
    inWindow 43200 33600 43200 = true ∧
    spec_in_window_half_open 43200 33600 43200 = false := by
  decide

/-- C3 (amended): the window test accepts t iff (start ≤ end and
start ≤ t ≤ end, both bounds inclusive) or (start > end and (t ≥ start or
t ≤ end, wrapping past midnight)); the three cited evaluations hold as
stated ("23:45" in "22:00"-"02:00" is true, "10:00" in "22:00"-"02:00" is
false, "09:30" in "09:20"-"12:00" is true). -/
theorem c3_theorem :
    (∀ t s e : Nat, inWindow t s e = true ↔
      ((s ≤ e ∧ s ≤ t ∧ t ≤ e) ∨ (e < s ∧ (s ≤ t ∨ t ≤ e)))) ∧
    inWindow 85500 79200 7200 = true ∧
    inWindow 36000 79200 7200 = false ∧
    inWindow 34200 33600 43200 = true := by
  refine ⟨fun t s e => ?_, by decide, by decide, by decide⟩
  simp [inWindow]

/-- C4 counterexample: classification compares the UTC seconds-of-day, not
the local-clock one: `c4_video` (created 10:00 UTC, 04:00 Chicago local) is
assigned the worship folder by the code, while the claimed local-clock
variant assigns nothing. -/
theorem c4_counterexample :
    determine_destination_folder_id c4_video = some "15749517" ∧
    spec_determine_destination_folder_local c4_video = none := by
  decide

/-- C4 (amended): the rule time-window check depends only on the video's
linked live event and the UTC seconds-of-day of its creation timestamp — in
particular never on the modification timestamp — and the clock value
compared against the window bounds is the UTC one. -/
theorem c4_theorem (v w : VideoInfo)
    (he : v.liveEvent = w.liveEvent)
    (ht : v.createdTime.map timeOfDay = w.createdTime.map timeOfDay) :
    determine_destination_folder_id v = determine_destination_folder_id w := by
  simp only [determine_destination_folder_id, he, ht]

/-- C4 witness: `c4_theorem` applied to two videos one day apart with equal
UTC seconds-of-day. -/
theorem c4_witness :
    c4_video_a.liveEvent = c4_video_b.liveEvent ∧
    c4_video_a.createdTime.map timeOfDay = c4_video_b.createdTime.map timeOfDay ∧
    determine_destination_folder_id c4_video_a = determine_destination_folder_id c4_video_b :=
  ⟨rfl, by decide, c4_theorem c4_video_a c4_video_b rfl (by decide)⟩

/-- C5 counterexample: for `c5_video` the target title computed by
`automaton-2.py` appends the date in parentheses after the original title; it
does not have the date prepended, so it is not of the claimed form
"YYYY-MM-DD - suffix" for any suffix. -/
theorem c5_counterexample :
    (a2_process_one c5_video).titleUpdate = some "Memorial Service (1970-01-01)" ∧
    isPrefixList ("1970-01-01 - ").data ("Memorial Service (1970-01-01)").data = false := by
  decide

/-- C5 (amended): in the `automaton-2.py` variant the target title is the
original title with " (YYYY-MM-DD)" appended, the date being the creation
timestamp's UTC civil date (the "date - title" prepended form exists only in
the `automaton_mp.py` variant, built from the matched event). -/
theorem c5_theorem (v : VideoInfo) (t : Nat)
    (hc : v.createdTime = some t)
    (hd : containsSub (formatDate t) (v.name.getD "Untitled") = false) :
    (a2_process_one v).titleUpdate =
      some (v.name.getD "Untitled" ++ " (" ++ formatDate t ++ ")") := by
  simp [a2_process_one, hc, hd]

/-- C5 witness: `c5_theorem` applied to `c5_video`. -/
theorem c5_witness :
    c5_video.createdTime = some 36000 ∧
    containsSub (formatDate 36000) (c5_video.name.getD "Untitled") = false ∧
    (a2_process_one c5_video).titleUpdate =
      some (c5_video.name.getD "Untitled" ++ " (" ++ formatDate 36000 ++ ")") :=
  ⟨rfl, by decide, c5_theorem c5_video 36000 rfl (by decide)⟩

/-- C9: with any non-empty event cache, `find_closest_event_in_cache` raises
a NameError at its confidence check (the undefined module name
MAX_TIME_DIFFERENCE_MINUTES) instead of returning the nearest event within
60 minutes; here the cache holds a single event 1000 seconds away. -/
theorem c9_theorem :
    find_closest_event_in_cache 36000 [⟨"Worship Service", 35000⟩] =
      Except.error PyErr.nameError := rfl

/-- C10: `add_video_to_folder` of `automaton-2.py` reports success when the
platform answers the folder-add PUT with HTTP status 400. -/
theorem c10_theorem :
    add_video_to_folder "111" "2478125" "42" (ApiOutcome.httpError 400) = true := rfl

/-- C6 counterexample: `automaton-2.py` never requests or checks
`is_playable`, so its run still acts on a non-playable video: for the
placeholder `c6_a2_video` (not excluded, creation time present) the run
issues a title update, refuting that no action at all is performed on a
video with `isPlayable = false`. -/
theorem c6_counterexample :
    c6_a2_video.isPlayable = false ∧
    a2_run [a2_view c6_a2_video] =
      [(a2_view c6_a2_video, ⟨some "Raw Placeholder (1970-01-01)", none⟩)] := by
  decide

/-- C6 (amended): only the `automaton_mp.py` variant enforces the
non-playable guard — there, a non-playable video contributes nothing to a run of
`automaton_mp.py`: removing it from the candidate list leaves the run's
action trace unchanged, whatever the event cache, the call outcomes, and the
surrounding videos (including any run-aborting exception they cause). -/
theorem c6_theorem (cache : List MpEvent) (v : MpVideo) (o : MpOracle)
    (l₁ l₂ : List (MpVideo × MpOracle)) (h : v.isPlayable = false) :
    mp_run cache (l₁ ++ (v, o) :: l₂) = mp_run cache (l₁ ++ l₂) := by
  induction l₁ with
  | nil => simp [mp_run, mp_check, h]
  | cons p l₁ ih =>
    obtain ⟨w, ow⟩ := p
    simp only [List.cons_append, mp_run]
    cases mp_check w with
    | skip => exact ih
    | crash => rfl
    | proceed =>
      cases process_video w cache ow with
      | error e => rfl
      | ok r =>
        obtain ⟨st, acts⟩ := r
        simp [ih]

/-- C6 witness: `c6_theorem` applied to the non-playable `c6_video`. -/
theorem c6_witness :
    c6_video.isPlayable = false ∧
    mp_run [] ([] ++ (c6_video, c6_oracle) :: []) = mp_run [] ([] ++ []) :=
  ⟨rfl, c6_theorem [] c6_video c6_oracle [] [] rfl⟩

/-- C8 counterexample: in `process_video` of `automaton_mp.py`, with the
rename PATCH failing the move is never attempted for `c8_video`, while with
the rename succeeding the very same video and event produce the move PUT —
the move attempt depends on the rename outcome. -/
theorem c8_counterexample :
    (process_video_matched c8_video c8_event ⟨false, true, 204⟩).2 =
      [MpAction.patchTitle "/videos/9" "1970-01-01 - Worship Team Special"] ∧
    (process_video_matched c8_video c8_event ⟨true, true, 204⟩).2 =
      [MpAction.patchTitle "/videos/9" "1970-01-01 - Worship Team Special",
        MpAction.putMove "9" "15749517"] := by
  decide

/-- C8 (amended): in the `automaton.py` variant the two mutations are
evaluated independently: the calls issued for a video and the uncaught
exception of its sorting phase are the same whatever the outcomes of the
rename and move calls (a failure of either is only recorded in the
counters); in `automaton_mp.py`, by contrast, a failed rename returns early
and the move is never attempted (see the counterexample). -/
theorem c8_theorem (v : VideoInfo) (o₁ o₂ : ApOracle) :
    (ap_process_one v o₁).actions = (ap_process_one v o₂).actions ∧
    (ap_process_one v o₁).crash = (ap_process_one v o₂).crash := by
  unfold ap_process_one
  generalize get_video_id_from_uri v.uri = gv
  generalize ap_determine_destination_folder_id v = dres
  generalize truthyStr v.name = tn
  generalize v.createdTime = ct
  cases gv with
  | none => exact ⟨rfl, rfl⟩
  | some vid =>
    cases tn <;> cases ct <;>
      first
      | (cases dres with
          | error e => exact ⟨rfl, rfl⟩
          | ok os =>
            cases os with
            | none => exact ⟨rfl, rfl⟩
            | some dest =>
              by_cases hf : get_folder_id_from_uri v.parentFolderUri = some dest <;>
                simp [hf])
      | (rename_i cur t
         by_cases hcs : containsSub (formatDate t) cur <;>
           cases dres with
           | error e => simp [hcs]
           | ok os =>
             cases os with
             | none => simp [hcs]
             | some dest =>
               by_cases hf : get_folder_id_from_uri v.parentFolderUri = some dest <;>
                 simp [hcs, hf])

/-- Helper for C7: under the sortedness and presence hypotheses, the kept
prefix of one page scan is exactly the filter of the page. -/
theorem scan_page_fst_eq_filter (since : Nat) (l : List VideoInfo)
    (hs : List.Pairwise (fun a b => cVal b ≤ cVal a) l)
    (ha : ∀ v ∈ l, v.createdTime.isSome) :
    (scan_page since l).1 = l.filter (in_lookback since) := by
  induction l with
  | nil => rfl
  | cons v vs ih =>
    rw [List.pairwise_cons] at hs
    obtain ⟨t, ht⟩ := Option.isSome_iff_exists.mp (ha v (by simp))
    have hvs : ∀ w ∈ vs, w.createdTime.isSome := fun w hw => ha w (by simp [hw])
    by_cases hlt : since < t
    · simp [scan_page, ht, hlt, List.filter_cons, in_lookback, ih hs.2 hvs]
    · have hfil : vs.filter (in_lookback since) = [] := by
        rw [List.filter_eq_nil_iff]
        intro w hw
        obtain ⟨tw, htw⟩ := Option.isSome_iff_exists.mp (hvs w hw)
        have h1 : tw ≤ t := by
          have h2 := hs.1 w hw
          simpa [cVal, ht, htw] using h2
        simp [in_lookback, htw]
        omega
      simp [scan_page, ht, hlt, List.filter_cons, in_lookback, hfil]

/-- Helper for C7: the early return only triggers after a video at or before
the boundary was seen. -/
theorem scan_page_stop_le (since : Nat) (l : List VideoInfo)
    (h2 : (scan_page since l).2 = true) :
    ∃ v ∈ l, ∃ t, v.createdTime = some t ∧ t ≤ since := by
  induction l with
  | nil => simp [scan_page] at h2
  | cons v vs ih =>
    cases hc : v.createdTime with
    | none =>
      simp only [scan_page, hc] at h2
      obtain ⟨w, hw, tw, hwt⟩ := ih h2
      exact ⟨w, by simp [hw], tw, hwt⟩
    | some t =>
      by_cases hlt : since < t
      · simp only [scan_page, hc, if_pos hlt] at h2
        obtain ⟨w, hw, tw, hwt⟩ := ih h2
        exact ⟨w, by simp [hw], tw, hwt⟩
      · exact ⟨v, by simp, t, hc, by omega⟩

/-- C7: when every page is non-empty, every listed video carries a creation
time, and the flattened listing is sorted newest-first by creation time, the
paginated fetch with its early exit returns exactly the listed videos
created strictly after the lookback boundary. -/
theorem c7_theorem (since : Nat) (pages : List (List VideoInfo))
    (hne : ∀ p ∈ pages, p ≠ [])
    (ha : ∀ v ∈ pages.flatten, v.createdTime.isSome)
    (hs : List.Pairwise (fun a b => cVal b ≤ cVal a) pages.flatten) :
    fetch_recent since pages = pages.flatten.filter (in_lookback since) := by
  induction pages with
  | nil => rfl
  | cons p ps ih =>
    rw [List.flatten_cons] at ha hs ⊢
    rw [List.pairwise_append] at hs
    have hap : ∀ v ∈ p, v.createdTime.isSome :=
      fun v hv => ha v (List.mem_append_left _ hv)
    have haps : ∀ v ∈ ps.flatten, v.createdTime.isSome :=
      fun v hv => ha v (List.mem_append_right _ hv)
    have hpne : p.isEmpty = false := by
      simpa [List.isEmpty_iff] using hne p (by simp)
    rw [List.filter_append]
    by_cases hstop : (scan_page since p).2 = true
    · obtain ⟨v, hv, t, hct, hts⟩ := scan_page_stop_le since p hstop
      have hnil : ps.flatten.filter (in_lookback since) = [] := by
        rw [List.filter_eq_nil_iff]
        intro w hw
        obtain ⟨tw, htw⟩ := Option.isSome_iff_exists.mp (haps w hw)
        have h1 : cVal w ≤ cVal v := hs.2.2 v hv w hw
        simp only [cVal, hct, htw, Option.getD_some] at h1
        simp [in_lookback, htw]
        omega
      simp [fetch_recent, hpne, hstop, hnil,
        scan_page_fst_eq_filter since p hs.1 hap]
    · simp [fetch_recent, hpne, hstop,
        scan_page_fst_eq_filter since p hs.1 hap,
        ih (fun q hq => hne q (by simp [hq])) haps hs.2.1]

/-- C7 witness: `c7_theorem` applied to a two-page listing sorted
newest-first around the boundary 60. -/
theorem c7_witness :
    (∀ p ∈ [[c7_vid_a], [c7_vid_b]], p ≠ []) ∧
    (∀ v ∈ ([[c7_vid_a], [c7_vid_b]] : List (List VideoInfo)).flatten, v.createdTime.isSome) ∧
    List.Pairwise (fun a b => cVal b ≤ cVal a)
      ([[c7_vid_a], [c7_vid_b]] : List (List VideoInfo)).flatten ∧
    fetch_recent 60 [[c7_vid_a], [c7_vid_b]] =
      ([[c7_vid_a], [c7_vid_b]] : List (List VideoInfo)).flatten.filter (in_lookback 60) :=
  ⟨by decide, by decide, by decide,
    c7_theorem 60 [[c7_vid_a], [c7_vid_b]] (by decide) (by decide) (by decide)⟩
